import Mathlib

/-!
Verification of the legal-core forensic intelligence pipeline.

Each Python function under scrutiny is embedded shallowly as a Lean
definition over exact data (Nat, Int, Rat, List, String).  Python
machine floats only ever carry values that are exact in the scenarios
proved here, so rational arithmetic is a faithful model at every input
we evaluate.  Library routines from the Python standard library and
from networkx are modelled by their documented algorithms; repository
methods that are referenced but not defined in the sources are
abstracted as explicit oracle parameters or modelled from the spec,
as noted in their doc comments.
-/

/-! ## Python string primitives -/

/-- Model of Python str.lower, character by character (the evidence
corpus is ASCII, where Char.toLower agrees with Python). -/
def pyLower (s : String) : String := ⟨s.data.map Char.toLower⟩

/-- listStartsWith hay needle is true when needle is a prefix of hay. -/
def listStartsWith : List Char → List Char → Bool
  | _, [] => true
  | [], _ :: _ => false
  | c :: cs, d :: ds => c == d && listStartsWith cs ds

/-- listContainsSub hay needle is true when needle occurs contiguously
inside hay (Python substring containment; the empty needle matches). -/
def listContainsSub : List Char → List Char → Bool
  | [], needle => needle.isEmpty
  | c :: cs, needle => listStartsWith (c :: cs) needle || listContainsSub cs needle

/-- Model of the Python expression needle in hay on strings. -/
def pyInStr (needle hay : String) : Bool := listContainsSub hay.data needle.data

/-- Number of starting positions of hay at which needle occurs
(occurrence count, overlapping occurrences included).  This is the
spec-side notion of counting keyword occurrences; the source code does
not use it, which is what claim C8 turns on. -/
def listCountOcc : List Char → List Char → Nat
  | [], needle => if needle.isEmpty then 1 else 0
  | c :: cs, needle =>
      (if listStartsWith (c :: cs) needle then 1 else 0) + listCountOcc cs needle

/-- Occurrence count of needle in hay, as strings. -/
def pyCountOcc (needle hay : String) : Nat := listCountOcc hay.data needle.data

/-- Python whitespace test used by str.strip. -/
def pyIsSpace (c : Char) : Bool :=
  c == ' ' || c == '\t' || c == '\n' || c == '\r' || c == '\x0b' || c == '\x0c'

/-- Model of Python str.strip with no argument. -/
def pyStrip (s : String) : String :=
  ⟨((s.data.dropWhile pyIsSpace).reverse.dropWhile pyIsSpace).reverse⟩

/-- Model of the counting idiom sum(1 for k in kws if k in text) used
throughout the repository: one point per configured keyword that occurs
in the (already lower-cased) text, regardless of multiplicity. -/
def presenceScore (kws : List String) (textLower : String) : Nat :=
  kws.countP (fun k => pyInStr k textLower)

/-! ## FORENSIC_METADATA_EXTRACTOR.analyze_language_tone -/

def aggressive_indicators : List String :=
  ["must", "require", "demand", "immediately", "failure to"]

def passive_indicators : List String :=
  ["please", "kindly", "would appreciate", "if possible"]

def professional_indicators : List String :=
  ["pursuant to", "in accordance with", "please find", "reference"]

/-- Embedding of ForensicMetadataExtractor.analyze_language_tone: the
three keyword-presence scores followed by the if-elif chain from the
source (aggressive needs a strictly larger score than both others). -/
def analyze_language_tone (content : String) : String :=
  let contentLower := pyLower content
  let aggressiveScore := presenceScore aggressive_indicators contentLower
  let passiveScore := presenceScore passive_indicators contentLower
  let professionalScore := presenceScore professional_indicators contentLower
  if aggressiveScore > Nat.max passiveScore professionalScore then "aggressive"
  else if passiveScore > professionalScore then "passive"
  else if professionalScore > 0 then "professional"
  else "neutral"

/-! ## EmotionalIntelligenceAnalyzer.detect_emotions -/

def emotion_keywords : List (String × List String) :=
  [("anger", ["angry", "furious", "irritated", "annoyed", "frustrated"]),
   ("fear", ["worried", "concerned", "anxious", "afraid", "nervous"]),
   ("joy", ["happy", "pleased", "satisfied", "glad", "delighted"]),
   ("sadness", ["sad", "disappointed", "upset", "discouraged"]),
   ("confidence", ["confident", "certain", "sure", "positive"]),
   ("urgency", ["urgent", "immediate", "asap", "rush", "quickly"])]

/-- Embedding of EmotionalIntelligenceAnalyzer.detect_emotions: for each
emotion group the presence score over the lower-cased text; a key is
present in the returned mapping exactly when its score is positive. -/
def detect_emotions (text : String) : List (String × Nat) :=
  let textLower := pyLower text
  emotion_keywords.filterMap (fun g =>
    let score := presenceScore g.2 textLower
    if score > 0 then some (g.1, score) else none)

/-! ## machiavellian_analyzer and risk_profiler -/

/-- Round-half-to-even on an integer-valued boundary, as Python round.
On the values reachable below (integers), this is exact. -/
def pyRoundHalfEven (q : ℚ) : ℤ :=
  let f : ℤ := ⌊q⌋
  let r : ℚ := q - f
  if r < 1/2 then f
  else if r > 1/2 then f + 1
  else if f % 2 = 0 then f else f + 1

/-- Model of Python round(x, 2).  Every value the analyzer feeds it is a
multiple of 1/4, which is exact in binary floating point, so the float
rounding and this exact rounding agree on all reachable inputs. -/
def pyRound2 (q : ℚ) : ℚ := (pyRoundHalfEven (q * 100) : ℚ) / 100

structure MachScore where
  deception : Nat
  emotional_control : Nat
  strategic_vagueness : Nat
  dominance_cue : Nat
  machiavellian_index : ℚ
deriving DecidableEq

/-- Embedding of score_machiavellian_traits from
src/src/psychology/machiavellian_analyzer.py.  Each trait starts at 0
and is incremented by exactly one conditional, and the index is
round(total / 4, 2). -/
def score_machiavellian_traits (text : String) : MachScore :=
  let t := pyLower text
  let strategicVagueness := if pyInStr "unforeseen circumstance" t then 1 else 0
  let dominanceCue := if pyInStr "as per our agreement" t then 1 else 0
  let emotionalControl := if pyInStr "regrettably" t then 1 else 0
  let deception :=
    if pyInStr "confidential" t || pyInStr "subjective" t || pyInStr "understanding" t
    then 1 else 0
  let total : Nat := deception + emotionalControl + strategicVagueness + dominanceCue
  { deception := deception
    emotional_control := emotionalControl
    strategic_vagueness := strategicVagueness
    dominance_cue := dominanceCue
    machiavellian_index := pyRound2 ((total : ℚ) / 4) }

structure RiskProfile where
  risk_score : Nat
  flags : List String
deriving DecidableEq

/-- Embedding of build_risk_profile from
src/src/forensics/risk_profiler.py (the traits field of the returned
dict is recoverable as score_machiavellian_traits text). -/
def build_risk_profile (text : String) : RiskProfile :=
  let mach := score_machiavellian_traits text
  let s1 : Nat := if mach.machiavellian_index ≥ 1 then 1 else 0
  let f1 : List String :=
    if mach.machiavellian_index ≥ 1 then ["High Machiavellian traits"] else []
  let s2 : Nat := if mach.deception ≥ 1 then 1 else 0
  let f2 : List String := if mach.deception ≥ 1 then ["Potential deception"] else []
  let s3 : Nat := if pyInStr "withhold" (pyLower text) then 1 else 0
  let f3 : List String :=
    if pyInStr "withhold" (pyLower text) then ["Intent to obscure information"] else []
  { risk_score := s1 + s2 + s3, flags := f1 ++ f2 ++ f3 }

/-- Occurrence-based score demanded by the spec sentence behind claim
C8: the sum over the configured keywords of their occurrence counts in
the body, so a keyword occurring k times contributes k.  The source
functions use presenceScore instead; the two disagree, which is the
content of the C8 counterexample. -/
def specOccurrenceScore (kws : List String) (textLower : String) : Nat :=
  (kws.map (fun k => pyCountOcc k textLower)).sum

/-! ## PredictiveStrategySimulator.calculate_success_probability -/

def base_probabilities : List (String × ℚ) :=
  [("aggressive_litigation", 6/10),
   ("collaborative_negotiation", 75/100),
   ("mediation_approach", 8/10),
   ("regulatory_escalation", 7/10),
   ("public_pressure", 5/10),
   ("settlement_negotiation", 85/100)]

/-- Python dict lookup base_probabilities.get(strategy, 0.5). -/
def baseProbLookup (s : String) : ℚ := (base_probabilities.lookup s).getD (1/2)

/-- The clamp min(1.0, x) from the return statement of
calculate_success_probability. -/
def probClamp (x : ℚ) : ℚ := min 1 x

/-- Embedding of PredictiveStrategySimulator.calculate_success_probability.
relationship_data is the list of values of the power-score mapping, each
carrying its overall_power_score when present (r.get with default 0.5);
np.mean is the exact arithmetic mean.  narrative_data is unused by the
source body and therefore omitted. -/
def calculate_success_probability (strategy : String)
    (relationship_data : List (Option ℚ)) : ℚ :=
  let adjustments : ℚ :=
    if relationship_data ≠ [] then
      if (relationship_data.map (fun r => r.getD (1/2))).sum /
           (relationship_data.length : ℚ) > 7/10
      then 1/10 else 0
    else 0
  probClamp (baseProbLookup strategy + adjustments)

/-! ## MasterIntelligenceSystem.verify_all_legal_information -/

structure VerificationDetail where
  confidence_score : Option ℚ
deriving DecidableEq

/-- Input shape of verify_all_legal_information: email_data maps a
contact to its list of email dicts, each contributing its content field
when it is a dict that has one (otherwise none); behavioral_analysis,
when present, contributes its str() rendering. -/
structure IntelligenceData where
  email_data : Option (List (String × List (Option String)))
  behavioral_analysis : Option String
deriving DecidableEq

/-- The all_text_content accumulation loop of
verify_all_legal_information, in source order: all email contents, then
the stringified behavioral analysis. -/
def all_text_content (d : IntelligenceData) : List String :=
  (match d.email_data with
   | none => []
   | some ed => (ed.map (fun ce => ce.2.filterMap id)).flatten) ++
  (match d.behavioral_analysis with
   | none => []
   | some s => [s])

structure OverallVerification where
  total_content_pieces : Nat
  verified_pieces : Nat
  verification_rate : ℚ
  government_verified : Bool
  detailed_results : List (Nat × VerificationDetail)
deriving DecidableEq

/-- Embedding of MasterIntelligenceSystem.verify_all_legal_information.
The oracle verifier stands for legal_verifier.auto_verify_legal_content
(a network-backed routine, consumed opaquely per the spec); result keys
content_i are modelled by the index i. -/
def verify_all_legal_information (verifier : String → VerificationDetail)
    (d : IntelligenceData) : OverallVerification :=
  let contents := all_text_content d
  let results := contents.enum.filterMap (fun ic =>
    if ic.2 ≠ "" ∧ (pyStrip ic.2).length > 10
    then some (ic.1, verifier ic.2) else none)
  let total := results.length
  let verified := results.countP (fun r => r.2.confidence_score.getD 0 ≥ 80)
  { total_content_pieces := total
    verified_pieces := verified
    verification_rate := if total > 0 then (verified : ℚ) / (total : ℚ) * 100 else 100
    government_verified := verified == total
    detailed_results := results }

/-! ## NarrativeReconstructionEngine.build_causal_relationship_map -/

/-- Model of Python range(a, b). -/
def pyRange (a b : Nat) : List Nat := (List.range (b - a)).map (fun k => a + k)

structure CausalLink (E V : Type) where
  cause_event : E
  effect_event : E
  causal_strength : ℚ
  evidence : V
deriving DecidableEq

/-- Embedding of NarrativeReconstructionEngine.build_causal_relationship_map.
The outer loop enumerates the timeline, the inner loop is
range(max(0, i - 5), i) (pyRange on truncated Nat subtraction), and a
link is retained exactly when the assessed strength exceeds 0.3.  The
methods assess_causal_relationship and extract_causal_evidence are
referenced by the source but not defined in it, so they enter as
explicit oracle parameters; every theorem below quantifies over them. -/
def build_causal_relationship_map {E V : Type} [Inhabited E]
    (assess : E → E → ℚ) (evid : E → E → V) (timeline : List E) :
    List (CausalLink E V) :=
  (List.range timeline.length).flatMap (fun i =>
    (pyRange (i - 5) i).filterMap (fun j =>
      let previous_event := timeline.getD j default
      let event := timeline.getD i default
      let causal_strength := assess previous_event event
      if causal_strength > 3/10 then
        some ⟨previous_event, event, causal_strength, evid previous_event event⟩
      else none))

/-! ## SHA-256 (hashlib.sha256(...).hexdigest), exact over byte lists -/

/-- 32-bit truncation. -/
def w32 (n : Nat) : Nat := n % 4294967296

/-- Right rotation of a 32-bit word by k bits. -/
def rotr32 (k n : Nat) : Nat := w32 (n / 2 ^ k + n % 2 ^ k * 2 ^ (32 - k))

/-- Logical right shift of a 32-bit word. -/
def shr32 (k n : Nat) : Nat := n / 2 ^ k

/-- Bitwise complement of a 32-bit word. -/
def bnot32 (n : Nat) : Nat := 4294967295 - n

def sha256Ch (x y z : Nat) : Nat := (x &&& y) ^^^ (bnot32 x &&& z)

def sha256Maj (x y z : Nat) : Nat := (x &&& y) ^^^ (x &&& z) ^^^ (y &&& z)

def sha256S0 (x : Nat) : Nat := rotr32 7 x ^^^ rotr32 18 x ^^^ shr32 3 x

def sha256S1 (x : Nat) : Nat := rotr32 17 x ^^^ rotr32 19 x ^^^ shr32 10 x

def sha256E0 (x : Nat) : Nat := rotr32 2 x ^^^ rotr32 13 x ^^^ rotr32 22 x

def sha256E1 (x : Nat) : Nat := rotr32 6 x ^^^ rotr32 11 x ^^^ rotr32 25 x

/-- Big-endian byte rendition of v on n bytes. -/
def beBytes : Nat → Nat → List Nat
  | 0, _ => []
  | n + 1, v => beBytes n (v / 256) ++ [v % 256]

/-- SHA-256 padding: 0x80, zeros to 56 mod 64, then the 64-bit
big-endian bit length. -/
def sha256Pad (msg : List Nat) : List Nat :=
  let L := msg.length
  let k := (120 - (L + 1) % 64) % 64
  msg ++ [128] ++ List.replicate k 0 ++ beBytes 8 (8 * L)

/-- Big-endian 32-bit words from bytes. -/
def bytesToWords : List Nat → List Nat
  | b0 :: b1 :: b2 :: b3 :: rest =>
      (((b0 * 256 + b1) * 256 + b2) * 256 + b3) :: bytesToWords rest
  | _ => []

/-- The 64-byte blocks of a padded message. -/
def chunks64 (l : List Nat) : List (List Nat) :=
  (List.range (l.length / 64)).map (fun i => (l.drop (64 * i)).take 64)

/-- Round constants: first 32 bits of the fractional parts of the cube
roots of the first 64 primes. -/
def sha256K : List Nat :=
  [1116352408, 1899447441, 3049323471, 3921009573, 961987163,
   1508970993, 2453635748, 2870763221, 3624381080, 310598401,
   607225278, 1426881987, 1925078388, 2162078206, 2614888103,
   3248222580, 3835390401, 4022224774, 264347078, 604807628,
   770255983, 1249150122, 1555081692, 1996064986, 2554220882,
   2821834349, 2952996808, 3210313671, 3336571891, 3584528711,
   113926993, 338241895, 666307205, 773529912, 1294757372,
   1396182291, 1695183700, 1986661051, 2177026350, 2456956037,
   2730485921, 2820302411, 3259730800, 3345764771, 3516065817,
   3600352804, 4094571909, 275423344, 430227734, 506948616,
   659060556, 883997877, 958139571, 1322822218, 1537002063,
   1747873779, 1955562222, 2024104815, 2227730452, 2361852424,
   2428436474, 2756734187, 3204031479, 3329325298]

def sha256Init : List Nat :=
  [1779033703, 3144134277, 1013904242, 2773480762,
   1359893119, 2600822924, 528734635, 1541459225]

/-- Message-schedule extension from 16 to 64 words. -/
def sha256Schedule (ws : List Nat) : List Nat :=
  (List.range 48).foldl
    (fun acc k =>
      let i := k + 16
      acc ++ [w32 (sha256S1 (acc.getD (i - 2) 0) + acc.getD (i - 7) 0 +
                   sha256S0 (acc.getD (i - 15) 0) + acc.getD (i - 16) 0)])
    ws

/-- One compression round on the working state [a,b,c,d,e,f,g,h]. -/
def sha256Round (ws : List Nat) (state : List Nat) (i : Nat) : List Nat :=
  match state with
  | [a, b, c, d, e, f, g, h] =>
      let t1 := w32 (h + sha256E1 e + sha256Ch e f g + sha256K.getD i 0 + ws.getD i 0)
      let t2 := w32 (sha256E0 a + sha256Maj a b c)
      [w32 (t1 + t2), a, b, c, w32 (d + t1), e, f, g]
  | s => s

/-- Compression of one 64-byte chunk into the running hash state. -/
def sha256Compress (hsIn chunk : List Nat) : List Nat :=
  let ws := sha256Schedule (bytesToWords chunk)
  let final := (List.range 64).foldl (sha256Round ws) hsIn
  (hsIn.zip final).map (fun p => w32 (p.1 + p.2))

/-- SHA-256 digest bytes of a byte list. -/
def sha256Bytes (msg : List Nat) : List Nat :=
  ((chunks64 (sha256Pad msg)).foldl sha256Compress sha256Init).flatMap (beBytes 4)

def hexDigit (n : Nat) : Char :=
  if n < 10 then Char.ofNat (48 + n) else Char.ofNat (87 + n)

/-- Lowercase hex digest, as hexdigest() returns. -/
def sha256Hex (msg : List Nat) : String :=
  ⟨(sha256Bytes msg).flatMap (fun b => [hexDigit (b / 16), hexDigit (b % 16)])⟩

/-- UTF-8 encoding of a string, modelling str.encode(). -/
def utf8Bytes (s : String) : List Nat :=
  s.data.flatMap (fun c =>
    let n := c.toNat
    if n < 128 then [n]
    else if n < 2048 then [192 + n / 64, 128 + n % 64]
    else if n < 65536 then [224 + n / 4096, 128 + n / 64 % 64, 128 + n % 64]
    else [240 + n / 262144, 128 + n / 4096 % 64, 128 + n / 64 % 64, 128 + n % 64])

/-! ## email.message.Message model and FORENSIC_METADATA_EXTRACTOR -/

/-- One MIME part as seen by msg.walk(): disposition, filename, content
type, and the decoded payload bytes (none when get_payload(decode=True)
yields nothing). -/
structure MsgPart where
  content_disposition : Option String
  filename : Option String
  content_type : String
  payload : Option (List Nat)
deriving DecidableEq

/-- A parsed email message: its header list (in order, duplicates
allowed) the attachment-bearing parts, and the top-level payload of a
non-multipart message.  Header lookup is modelled name-exact; the
extractor only ever queries the canonical capitalizations it was
written with. -/
structure PyMessage where
  headers : List (String × String)
  parts : List MsgPart
  body_payload : Option (List Nat)
deriving DecidableEq, Inhabited

/-- msg.get(name, default): first matching header or the default. -/
def msgGet (m : PyMessage) (name dflt : String) : String :=
  ((m.headers.find? (fun h => h.1 == name)).map Prod.snd).getD dflt

/-- msg.get_all(name, []): all matching header values in order. -/
def msgGetAll (m : PyMessage) (name : String) : List String :=
  (m.headers.filter (fun h => h.1 == name)).map Prod.snd

structure ParseError where
  message : String
deriving DecidableEq

/-- Oracles for routines outside the embedding:
email.utils.parsedate_to_datetime (none when the date header is
unparseable), email.utils.parseaddr and getaddresses, str(msg)
serialization, email.message_from_bytes (ParseError when the raw bytes
cannot be interpreted as a message), and permissive utf-8 decoding.
The last four fields stand for detect_legal_clauses (whose regular
expression matching is abstracted) and for calculate_sentiment_score,
detect_manipulation_patterns and analyze_urgency_patterns, which the
source calls but never defines; modelled from the spec as pure
functions of their text argument.  Timestamps are epoch seconds. -/
structure EmailStdlib where
  parsedate_to_datetime : String → Option ℤ
  parseaddr : String → String × String
  getaddresses : List String → List (String × String)
  str_of_message : PyMessage → String
  message_from_bytes : List Nat → Except ParseError PyMessage
  decode_ignore : List Nat → String
  sentiment_of : String → ℚ
  legal_clauses_of : String → List String
  manipulation_of : String → List String
  urgency_of : String → List String

/-- The EmailRecord assembled by extract_complete_email_metadata, field
for field. -/
structure EmailMetadata where
  message_id : String
  date_rfc2822 : String
  date_parsed : Option ℤ
  sender_name : String
  sender_email : String
  recipients_to : List String
  recipients_cc : List String
  recipients_bcc : List String
  reply_to : String
  subject : String
  references : String
  in_reply_to : String
  mime_version : String
  content_type : String
  transfer_encoding : String
  x_mailer : String
  x_originating_ip : String
  received_path : String
  authentication_results : String
  arc_authentication : String
  delivered_to : String
  message_hash : String
  extraction_timestamp : ℤ
deriving DecidableEq

/-- The token captured by the regular expression from\s+(\S+) in a
Received header, with whitespace modelled as the space character. -/
def tokenAfterFrom : List Char → Option (List Char)
  | [] => none
  | c :: cs =>
      if listStartsWith (c :: cs) ("from ".data) then
        some ((((c :: cs).drop 5).dropWhile (fun ch => ch == ' ')).takeWhile
          (fun ch => !(pyIsSpace ch)))
      else tokenAfterFrom cs

/-- Embedding of ForensicMetadataExtractor.analyze_received_path. -/
def analyze_received_path (received : List String) : String :=
  String.intercalate " -> "
    (received.filterMap (fun h => (tokenAfterFrom h.data).map (fun t => (⟨t⟩ : String))))

/-- Embedding of ForensicMetadataExtractor.extract_complete_email_metadata.
Every field is computed from the message through the fixed stdlib
oracles; now is the datetime.now() reading that only lands in
extraction_timestamp.  The message hash is sha256 of the utf-8 bytes of
str(msg), as in the source. -/
def extract_complete_email_metadata (lib : EmailStdlib) (msg : PyMessage)
    (now : ℤ) : EmailMetadata :=
  let sender_parsed := lib.parseaddr (msgGet msg "From" "")
  { message_id := msgGet msg "Message-ID" ""
    date_rfc2822 := msgGet msg "Date" ""
    date_parsed :=
      if msgGet msg "Date" "" ≠ "" then lib.parsedate_to_datetime (msgGet msg "Date" "")
      else none
    sender_name := sender_parsed.1
    sender_email := sender_parsed.2
    recipients_to := (lib.getaddresses (msgGetAll msg "To")).map Prod.snd
    recipients_cc := (lib.getaddresses (msgGetAll msg "Cc")).map Prod.snd
    recipients_bcc := (lib.getaddresses (msgGetAll msg "Bcc")).map Prod.snd
    reply_to := msgGet msg "Reply-To" ""
    subject := msgGet msg "Subject" ""
    references := msgGet msg "References" ""
    in_reply_to := msgGet msg "In-Reply-To" ""
    mime_version := msgGet msg "MIME-Version" ""
    content_type := msgGet msg "Content-Type" ""
    transfer_encoding := msgGet msg "Content-Transfer-Encoding" ""
    x_mailer := msgGet msg "X-Mailer" ""
    x_originating_ip := msgGet msg "X-Originating-IP" ""
    received_path := analyze_received_path (msgGetAll msg "Received")
    authentication_results := msgGet msg "Authentication-Results" ""
    arc_authentication := msgGet msg "ARC-Authentication-Results" ""
    delivered_to := msgGet msg "Delivered-To" ""
    message_hash := sha256Hex (utf8Bytes (lib.str_of_message msg))
    extraction_timestamp := now }

/-- Normalizes the one clock-dependent field so records from different
runs can be compared, per spec section 8 (idempotence excludes the
extraction timestamp). -/
def stripExtractionTimestamp (m : EmailMetadata) : EmailMetadata :=
  { m with extraction_timestamp := 0 }

/-- Raw-bytes entry point: parse, then extract. -/
def extract_from_bytes (lib : EmailStdlib) (raw : List Nat) (now : ℤ) :
    Except ParseError EmailMetadata :=
  (lib.message_from_bytes raw).map (fun msg => extract_complete_email_metadata lib msg now)

structure AttachmentMetadata where
  filename : Option String
  mime_type : String
  file_size : Option Nat
  content_hash : Option String
deriving DecidableEq

/-- Embedding of ForensicMetadataExtractor.extract_attachment_metadata:
parts whose disposition is attachment, with size and sha256 hash filled
only for truthy payloads.  The exif and pdf sub-extractors the source
dispatches to are not defined in the sources and set no field modelled
here. -/
def extract_attachment_metadata (msg : PyMessage) : List AttachmentMetadata :=
  (msg.parts.filter (fun p => p.content_disposition == some "attachment")).map (fun p =>
    match p.payload with
    | some content =>
        if content ≠ [] then
          { filename := p.filename, mime_type := p.content_type,
            file_size := some content.length,
            content_hash := some (sha256Hex content) }
        else
          { filename := p.filename, mime_type := p.content_type,
            file_size := none, content_hash := none }
    | none =>
        { filename := p.filename, mime_type := p.content_type,
          file_size := none, content_hash := none })

/-- Embedding of ForensicMetadataExtractor.get_email_content: first
text/plain part of a multipart message, else the top-level payload,
decoded permissively; empty string when nothing is found. -/
def get_email_content (lib : EmailStdlib) (msg : PyMessage) : String :=
  if msg.parts ≠ [] then
    match msg.parts.find? (fun p => p.content_type == "text/plain") with
    | some p =>
        match p.payload with
        | some content => lib.decode_ignore content
        | none => ""
    | none => ""
  else
    match msg.body_payload with
    | some content => lib.decode_ignore content
    | none => ""

/-- Tokens of a Python str.split() with no argument: runs of
non-whitespace. -/
def pyWords : List Char → List Char → List (List Char)
  | [], acc => if acc.isEmpty then [] else [acc.reverse]
  | c :: cs, acc =>
      if pyIsSpace c then
        if acc.isEmpty then pyWords cs [] else acc.reverse :: pyWords cs []
      else pyWords cs (c :: acc)

/-- thread_depth: len(references.split()) when the header is truthy. -/
def thread_depth_of (refs : String) : Nat :=
  if refs ≠ "" then (pyWords refs.data []).length else 0

/-- Hour of day of an epoch-seconds timestamp (UTC; the evidence
timestamps are positive). -/
def hourOf (t : ℤ) : ℤ := t / 3600 % 24

structure BehavioralAnalysis where
  thread_depth : Nat
  timestamp_after_hours : Option Bool
  language_tone : String
  sentiment_score : ℚ
  legal_clause_references : List String
  manipulation_indicators : List String
  urgency_indicators : List String
deriving DecidableEq

/-- Embedding of ForensicMetadataExtractor.analyze_email_behavior.  The
after-hours key is only set when date_parsed is present, as in the
source; tone classification is the analyze_language_tone embedding
above; the remaining scores go through the oracles for the methods the
source references without defining. -/
def analyze_email_behavior (lib : EmailStdlib) (msg : PyMessage)
    (metadata : EmailMetadata) : BehavioralAnalysis :=
  let content := get_email_content lib msg
  { thread_depth := thread_depth_of metadata.references
    timestamp_after_hours :=
      metadata.date_parsed.map (fun t =>
        if hourOf t < 7 ∨ hourOf t > 18 then true else false)
    language_tone := analyze_language_tone content
    sentiment_score := lib.sentiment_of content
    legal_clause_references := lib.legal_clauses_of content
    manipulation_indicators := lib.manipulation_of content
    urgency_indicators := lib.urgency_of content }

structure ExtractedEmail where
  metadata : EmailMetadata
  attachments : List AttachmentMetadata
  behavioral : BehavioralAnalysis
deriving DecidableEq

/-- One entry of self.forensic_timeline as appended by
process_single_eml. -/
structure ForensicEvent where
  timestamp : Option ℤ
  event_type : String
  participants : List String
  subject : String
  metadata_hash : String
deriving DecidableEq, Inhabited

inductive ForensicLogEntry
  | parse_error (message : String)
deriving DecidableEq

/-- The mutable extractor state: extracted_metadata, forensic_timeline
and the forensic log (the sqlite store is persistence, out of core
scope per spec section 1). -/
structure ExtractorState where
  extracted_metadata : List ExtractedEmail
  forensic_timeline : List ForensicEvent
  log : List ForensicLogEntry
deriving DecidableEq

def emptyExtractorState : ExtractorState := ⟨[], [], []⟩

/-- Embedding of ForensicMetadataExtractor.process_single_eml: the try
block parses the raw bytes and, on success, appends the extracted
record and its timeline event; the except branch logs the error for the
offending item and leaves everything else untouched. -/
def process_single_eml (lib : EmailStdlib) (now : ℤ) (st : ExtractorState)
    (raw : List Nat) : ExtractorState :=
  match lib.message_from_bytes raw with
  | .error e => { st with log := st.log ++ [ForensicLogEntry.parse_error e.message] }
  | .ok msg =>
      let metadata := extract_complete_email_metadata lib msg now
      let attachments := extract_attachment_metadata msg
      let behavioral := analyze_email_behavior lib msg metadata
      { st with
        extracted_metadata := st.extracted_metadata ++ [⟨metadata, attachments, behavioral⟩]
        forensic_timeline := st.forensic_timeline ++
          [⟨metadata.date_parsed, "email_communication",
            metadata.sender_email :: metadata.recipients_to,
            metadata.subject, metadata.message_hash⟩] }

/-- Modelled from the spec: process_email_directory is invoked by
execute_complete_forensic_extraction but missing from the sources; per
spec sections 6 and 7 ingestion enumerates the constituent messages of
the source uniformly and continues with remaining items after a logged
ParseError, so it folds process_single_eml over the items in order. -/
def process_email_directory (lib : EmailStdlib) (now : ℤ)
    (st : ExtractorState) (items : List (List Nat)) : ExtractorState :=
  items.foldl (process_single_eml lib now) st

/-- Stable insertion: x goes before the first element whose key is not
smaller, so elements processed earlier keep their relative order among
equal keys. -/
def stableInsertBy {α : Type} (key : α → ℤ) (x : α) : List α → List α
  | [] => [x]
  | y :: ys => if key x ≤ key y then x :: y :: ys else y :: stableInsertBy key x ys

/-- Stable ascending sort by an integer key; agrees with the output of
any stable comparison sort such as the timsort behind Python sorted. -/
def stableSortBy {α : Type} (key : α → ℤ) : List α → List α
  | [] => []
  | x :: xs => stableInsertBy key x (stableSortBy key xs)

/-- datetime.min of the Python datetime module (0001-01-01T00:00:00) as
epoch seconds, the fallback sort key for null timestamps. -/
def datetime_min : ℤ := -62135596800

structure TimelineAnalysis where
  total_events : Nat
  date_range_start : Option ℤ
  date_range_end : Option ℤ
  events : List ForensicEvent
deriving DecidableEq

/-- Embedding of ForensicMetadataExtractor.create_forensic_timeline:
sorted(timeline, key = timestamp or datetime.min), total event count
and the date range over the sorted list (null endpoints stay null).
The gap_analysis field calls a method missing from the sources and is
omitted. -/
def create_forensic_timeline (evs : List ForensicEvent) : TimelineAnalysis :=
  let timeline := stableSortBy (fun e => e.timestamp.getD datetime_min) evs
  { total_events := timeline.length
    date_range_start := timeline.head?.bind (fun e => e.timestamp)
    date_range_end := timeline.getLast?.bind (fun e => e.timestamp)
    events := timeline }

structure ForensicAnalysis where
  total_emails : Nat
  timeline_analysis : TimelineAnalysis
deriving DecidableEq

/-- Embedding of ForensicMetadataExtractor.generate_forensic_analysis
restricted to the sections whose producers exist in the sources: the
case metadata email count and the timeline analysis.  The contradiction,
retaliation, authentication and integrity sections call methods missing
from the sources. -/
def generate_forensic_analysis (st : ExtractorState) : ForensicAnalysis :=
  { total_emails := st.extracted_metadata.length
    timeline_analysis := create_forensic_timeline st.forensic_timeline }

/-! ## NarrativeReconstructionEngine.extract_comprehensive_timeline -/

inductive PySortError
  | none_comparison
deriving DecidableEq

/-- Model of Python list.sort(key=k) where the key may be None: CPython
timsort compares keys with < whenever the list has at least two
elements, and both None < datetime and None < None raise TypeError, so
any None key in a list of length at least 2 aborts with the error;
otherwise the result is the stable ascending order. -/
def pySortByOptKey {α : Type} (key : α → Option ℤ) (l : List α) :
    Except PySortError (List α) :=
  if l.length ≤ 1 then .ok l
  else if l.all (fun x => (key x).isSome) then
    .ok (stableSortBy (fun x => (key x).getD 0) l)
  else .error .none_comparison

/-- An email dict as consumed by extract_comprehensive_timeline. -/
structure SrcEmail where
  timestamp : Option ℤ
  sender : String
  recipient : String
  subject : String
deriving DecidableEq, Inhabited

/-- A legal-document dict as consumed by extract_comprehensive_timeline
(absent keys are none and fall back to the source defaults). -/
structure SrcDoc where
  date : Option ℤ
  document_type : Option String
  parties : List String
  title : Option String
deriving DecidableEq

/-- One timeline event dict (the details back-pointer to the raw dict
is omitted as redundant with the originating lists). -/
structure TLEvent where
  timestamp : Option ℤ
  event_type : String
  subtype : String
  participants : List String
  content : String
  importance : String
deriving DecidableEq, Inhabited

/-- Embedding of NarrativeReconstructionEngine.extract_comprehensive_timeline:
email events then document events, then timeline.sort(key = timestamp).
Document dates default to datetime.now() (the now argument), so only
email events can carry a null key into the sort.  The per-email
importance comes from assess_event_importance, which the source calls
but never defines, abstracted as the imp oracle. -/
def extract_comprehensive_timeline (imp : SrcEmail → String)
    (emails : List SrcEmail) (documents : List SrcDoc) (now : ℤ) :
    Except PySortError (List TLEvent) :=
  let fromEmails := emails.map (fun e =>
    { timestamp := e.timestamp, event_type := "communication", subtype := "email",
      participants := [e.sender, e.recipient], content := e.subject,
      importance := imp e : TLEvent })
  let fromDocs := documents.map (fun d =>
    { timestamp := some (d.date.getD now), event_type := "legal_action",
      subtype := d.document_type.getD "unknown", participants := d.parties,
      content := d.title.getD "", importance := "high" : TLEvent })
  pySortByOptKey (fun ev => ev.timestamp) (fromEmails ++ fromDocs)

/-- Truth value of whether an Except carries a success, the shape of
the no-exception path of the try blocks. -/
def exceptIsOk {e a : Type} : Except e a → Bool
  | .ok _ => true
  | .error _ => false

/-- A fixed well-formed message used to instantiate the stdlib oracles
in concrete evaluations. -/
def c2msg : PyMessage :=
  ⟨[("From", "agent@areal.com.au"), ("To", "tenant@gmail.com"),
    ("Subject", "Notice"), ("Date", "Tue, 01 Apr 2025 09:15:00 +1000")], [], none⟩

/-- A concrete stdlib-oracle instance: empty raw input is unparseable,
everything else parses to c2msg; the parsing helpers are simple total
stand-ins. -/
def c2lib : EmailStdlib :=
  { parsedate_to_datetime := fun _ => some 1743462900
    parseaddr := fun s => ("", s)
    getaddresses := fun l => l.map (fun a => ("", a))
    str_of_message := fun m =>
      String.intercalate ", " (m.headers.map (fun h => h.1 ++ ": " ++ h.2))
    message_from_bytes := fun raw =>
      if raw = [] then .error ⟨"cannot interpret raw input as a message"⟩ else .ok c2msg
    decode_ignore := fun _ => ""
    sentiment_of := fun _ => 0
    legal_clauses_of := fun _ => []
    manipulation_of := fun _ => []
    urgency_of := fun _ => [] }

/-- A record-set fragment with a null timestamp, for the timeline
claims. -/
def c3EmailNull : SrcEmail := ⟨none, "agent@areal.com.au", "tenant@gmail.com", "Notice"⟩

/-- A companion record with a parsed timestamp. -/
def c3EmailDated : SrcEmail :=
  ⟨some 1743462900, "tenant@gmail.com", "agent@areal.com.au", "Re: Notice"⟩

/-! ## networkx centralities and RelationshipNetworkMapper.calculate_power_dynamics

calculate_power_dynamics calls nx.betweenness_centrality,
nx.closeness_centrality and nx.eigenvector_centrality(max_iter=1000),
all without a weight argument, on the nx.DiGraph relationship graph.
Betweenness and closeness are modelled by their defining formulas over
shortest-path counts (equal to the Brandes output networkx computes);
the eigenvector centrality is modelled by the networkx power iteration
on A + I with the math.hypot norm (a zero norm falls back to 1), the
default tolerance 1e-6 times the node count, and the given iteration
cap.  Rational square roots model the norm exactly; on inputs where the
norm is irrational the model reports inexact_float instead of an
approximate value — every evaluation below stays in the exact range. -/

structure NXDiGraph where
  nodes : List String
  edges : List (String × String × ℚ)
deriving DecidableEq

/-- Adjacency G[v] of a simple directed graph. -/
def nxSuccessors (G : NXDiGraph) (v : String) : List String :=
  ((G.edges.filter (fun e => e.1 == v)).map (fun e => e.2.1)).dedup

/-- All simple paths from s to t (fuel bounds the recursion depth by
the node count; a simple path visits each node once). -/
def simplePathsFrom (G : NXDiGraph) :
    Nat → String → String → List String → List (List String)
  | 0, _, _, _ => []
  | fuel + 1, s, t, visited =>
      if s == t then [[s]]
      else ((nxSuccessors G s).filter (fun n => !(visited.contains n))).flatMap
        (fun n => (simplePathsFrom G fuel n t (n :: visited)).map (fun p => s :: p))

def nxSimplePaths (G : NXDiGraph) (s t : String) : List (List String) :=
  simplePathsFrom G (G.nodes.length + 1) s t [s]

/-- Edge count of a path. -/
def pathLen (p : List String) : Nat := p.length - 1

def natListMin : List Nat → Option Nat
  | [] => none
  | x :: xs =>
      match natListMin xs with
      | none => some x
      | some m => some (Nat.min x m)

/-- Length of a shortest path from s to t, none when unreachable. -/
def nxShortestLen (G : NXDiGraph) (s t : String) : Option Nat :=
  natListMin ((nxSimplePaths G s t).map pathLen)

def nxShortestPaths (G : NXDiGraph) (s t : String) : List (List String) :=
  match nxShortestLen G s t with
  | none => []
  | some d => (nxSimplePaths G s t).filter (fun p => pathLen p == d)

/-- Number of shortest s-t paths. -/
def nxSigma (G : NXDiGraph) (s t : String) : Nat := (nxShortestPaths G s t).length

/-- Number of shortest s-t paths through v. -/
def nxSigmaThrough (G : NXDiGraph) (s t v : String) : Nat :=
  ((nxShortestPaths G s t).filter (fun p => p.contains v)).length

/-- nx.betweenness_centrality with its defaults (normalized, directed):
the pair-dependency sum, rescaled by 1/((n-1)(n-2)) only when n > 2. -/
def betweenness_centrality (G : NXDiGraph) : List (String × ℚ) :=
  let n := G.nodes.length
  let raw := G.nodes.map (fun v =>
    (v, (G.nodes.flatMap (fun s => G.nodes.map (fun t =>
          if s ≠ v ∧ t ≠ v ∧ s ≠ t ∧ nxSigma G s t ≠ 0 then
            (nxSigmaThrough G s t v : ℚ) / (nxSigma G s t : ℚ)
          else 0))).sum))
  if n > 2 then raw.map (fun p => (p.1, p.2 / (((n - 1) * (n - 2) : Nat) : ℚ))) else raw

/-- nx.closeness_centrality with its defaults (incoming distances on a
directed graph, Wasserman-Faust improved normalization); nodes with no
incoming paths score 0 via the totsp > 0 guard. -/
def closeness_centrality (G : NXDiGraph) : List (String × ℚ) :=
  G.nodes.map (fun u =>
    let dists := G.nodes.filterMap (fun t => nxShortestLen G t u)
    let totsp : ℚ := (dists.map (fun d => (d : ℚ))).sum
    let r := dists.length
    (u, if totsp > 0 ∧ G.nodes.length > 1 then
          ((r : ℚ) - 1) / totsp * (((r : ℚ) - 1) / ((G.nodes.length : ℚ) - 1))
        else 0))

/-- Exact rational square root, none when the argument is negative or
not a perfect rational square (the inexact-float regime). -/
def ratSqrt (q : ℚ) : Option ℚ :=
  if q < 0 then none
  else
    let sn := Nat.sqrt q.num.toNat
    let sd := Nat.sqrt q.den
    if sn * sn = q.num.toNat ∧ sd * sd = q.den then some ((sn : ℚ) / (sd : ℚ))
    else none

inductive CentralityError
  | pointless_graph
  | power_iteration_failed
  | inexact_float
deriving DecidableEq

/-- One (A + I) accumulation pass of the networkx power iteration:
x[nbr] += xlast[n] for every successor nbr of n, starting from a copy
of xlast. -/
def eigStep (G : NXDiGraph) (x : List (String × ℚ)) : List (String × ℚ) :=
  x.map (fun p => (p.1, p.2 +
    (x.map (fun q2 => if (nxSuccessors G q2.1).contains p.1 then q2.2 else 0)).sum))

def l1Diff (x y : List (String × ℚ)) : ℚ :=
  ((x.zip y).map (fun p => |p.1.2 - p.2.2|)).sum

/-- The iteration loop of nx.eigenvector_centrality: accumulate,
normalize by the Euclidean norm (or 1 when it vanishes), return on
convergence below nnodes * 1e-6, and fail after the iteration cap. -/
def eigLoop (G : NXDiGraph) (nnodes : Nat) :
    Nat → List (String × ℚ) → Except CentralityError (List (String × ℚ))
  | 0, _ => .error .power_iteration_failed
  | fuel + 1, x =>
      let xnew := eigStep G x
      match ratSqrt ((xnew.map (fun p => p.2 ^ 2)).sum) with
      | none => .error .inexact_float
      | some nrm0 =>
          let nrm := if nrm0 = 0 then 1 else nrm0
          let xn := xnew.map (fun p => (p.1, p.2 / nrm))
          if l1Diff xn x < (nnodes : ℚ) * (1 / 1000000) then .ok xn
          else eigLoop G nnodes fuel xn

/-- nx.eigenvector_centrality: uniform start vector 1/n, error on the
empty graph. -/
def eigenvector_centrality (G : NXDiGraph) (maxIter : Nat) :
    Except CentralityError (List (String × ℚ)) :=
  if G.nodes.isEmpty then .error .pointless_graph
  else eigLoop G G.nodes.length maxIter
        (G.nodes.map (fun v => (v, (1 : ℚ) / (G.nodes.length : ℚ))))

/-- The .get(node, 0) read of a centrality dict. -/
def scoreLookup (l : List (String × ℚ)) (v : String) : ℚ := (l.lookup v).getD 0

structure PowerScoreRecord where
  betweenness : ℚ
  closeness : ℚ
  eigenvector : ℚ
  overall_power_score : ℚ
deriving DecidableEq

/-- Embedding of RelationshipNetworkMapper.calculate_power_dynamics:
the three centrality dicts, then per node the score record with
overall_power_score their mean; an exception from the eigenvector
computation propagates. -/
def calculate_power_dynamics (G : NXDiGraph) :
    Except CentralityError (List (String × PowerScoreRecord)) :=
  let b := betweenness_centrality G
  let c := closeness_centrality G
  (eigenvector_centrality G 1000).map (fun eg =>
    G.nodes.map (fun node =>
      (node,
        { betweenness := scoreLookup b node
          closeness := scoreLookup c node
          eigenvector := scoreLookup eg node
          overall_power_score :=
            (scoreLookup b node + scoreLookup c node + scoreLookup eg node) / 3 })))

/-- The degenerate input of claim C5: one node, no edges. -/
def singleNodeGraph : NXDiGraph := ⟨["alice"], []⟩

/-! ## Theorems -/

theorem mem_pyRange {a b j : Nat} (h : j ∈ pyRange a b) : a ≤ j ∧ j < b := by
  unfold pyRange at h
  obtain ⟨k, hk, heq⟩ := List.mem_map.mp h
  rw [List.mem_range] at hk
  omega

theorem pyRoundHalfEven_intCast (n : ℤ) : pyRoundHalfEven (n : ℚ) = n := by
  unfold pyRoundHalfEven
  rw [Int.floor_intCast]
  norm_num

theorem pyRound2_natDiv4 (k : Nat) : pyRound2 ((k : ℚ) / 4) = (k : ℚ) / 4 := by
  unfold pyRound2
  have h : ((k : ℚ) / 4) * 100 = ((25 * k : ℤ) : ℚ) := by push_cast; ring
  rw [h, pyRoundHalfEven_intCast]
  push_cast
  ring

theorem pyRoundHalfEven_0 : pyRoundHalfEven 0 = 0 := by
  rw [show (0 : ℚ) = ((0 : ℤ) : ℚ) by norm_num]
  exact pyRoundHalfEven_intCast 0

theorem pyRoundHalfEven_25 : pyRoundHalfEven 25 = 25 := by
  rw [show (25 : ℚ) = ((25 : ℤ) : ℚ) by norm_num]
  exact pyRoundHalfEven_intCast 25

theorem pyRoundHalfEven_50 : pyRoundHalfEven 50 = 50 := by
  rw [show (50 : ℚ) = ((50 : ℤ) : ℚ) by norm_num]
  exact pyRoundHalfEven_intCast 50

theorem pyRoundHalfEven_75 : pyRoundHalfEven 75 = 75 := by
  rw [show (75 : ℚ) = ((75 : ℤ) : ℚ) by norm_num]
  exact pyRoundHalfEven_intCast 75

theorem pyRoundHalfEven_100 : pyRoundHalfEven 100 = 100 := by
  rw [show (100 : ℚ) = ((100 : ℤ) : ℚ) by norm_num]
  exact pyRoundHalfEven_intCast 100

theorem highMach_ne_deceptionFlag :
    "High Machiavellian traits" ≠ "Potential deception" := by decide

theorem highMach_ne_obscureFlag :
    "High Machiavellian traits" ≠ "Intent to obscure information" := by decide

/-- C1 counterexample: a body with exactly 2 aggressive keyword hits
(must, immediately), 2 passive hits (please, kindly) and 0 professional
hits is classified passive, not aggressive, because the aggressive
branch requires a strictly larger score. -/
theorem c1_counterexample :
    presenceScore aggressive_indicators
        (pyLower "you must comply immediately please kindly") = 2 ∧
    presenceScore passive_indicators
        (pyLower "you must comply immediately please kindly") = 2 ∧
    presenceScore professional_indicators
        (pyLower "you must comply immediately please kindly") = 0 ∧
    analyze_language_tone "you must comply immediately please kindly" = "passive" ∧
    ("passive" : String) ≠ "aggressive" := by decide

/-- C1 (amended): ties between aggressive and passive favor passive:
whenever the aggressive and passive scores are equal and the
professional score is strictly smaller, analyze_language_tone returns
passive, since the aggressive branch demands a strictly larger score
than both competitors. -/
theorem c1_tie_goes_to_passive (content : String)
    (h1 : presenceScore aggressive_indicators (pyLower content) =
          presenceScore passive_indicators (pyLower content))
    (h2 : presenceScore professional_indicators (pyLower content) <
          presenceScore passive_indicators (pyLower content)) :
    analyze_language_tone content = "passive" := by
  have hA : ¬ (presenceScore aggressive_indicators (pyLower content) >
      Nat.max (presenceScore passive_indicators (pyLower content))
        (presenceScore professional_indicators (pyLower content))) := by
    rw [h1]
    exact Nat.not_lt.mpr (Nat.le_max_left _ _)
  show (if presenceScore aggressive_indicators (pyLower content) >
          Nat.max (presenceScore passive_indicators (pyLower content))
            (presenceScore professional_indicators (pyLower content))
        then "aggressive"
        else if presenceScore passive_indicators (pyLower content) >
               presenceScore professional_indicators (pyLower content)
        then "passive"
        else if presenceScore professional_indicators (pyLower content) > 0
        then "professional" else "neutral") = "passive"
  rw [if_neg hA, if_pos h2]

/-- Witness for c1_tie_goes_to_passive at a concrete tied body. -/
theorem c1_tie_goes_to_passive_witness :
    (presenceScore aggressive_indicators
        (pyLower "you must leave immediately please kindly") =
      presenceScore passive_indicators
        (pyLower "you must leave immediately please kindly")) ∧
    (presenceScore professional_indicators
        (pyLower "you must leave immediately please kindly") <
      presenceScore passive_indicators
        (pyLower "you must leave immediately please kindly")) ∧
    analyze_language_tone "you must leave immediately please kindly" = "passive" :=
  ⟨by decide, by decide,
    c1_tie_goes_to_passive "you must leave immediately please kindly"
      (by decide) (by decide)⟩

/-- C8 counterexample: the body urgent urgent contains the keyword
urgent twice, so the occurrence-based score claimed by the spec is 2,
but detect_emotions scores urgency as 1 — each configured keyword
contributes at most one point regardless of multiplicity. -/
theorem c8_counterexample :
    detect_emotions "urgent urgent" = [("urgency", 1)] ∧
    specOccurrenceScore ["urgent", "immediate", "asap", "rush", "quickly"]
      (pyLower "urgent urgent") = 2 ∧
    (1 : Nat) ≠ 2 := by decide

/-- C8 (amended): every score reported by detect_emotions is the number
of the configured keywords of its group that occur in the body at least
once (presence, not multiplicity), hence a positive integer bounded by
the size of the keyword group. -/
theorem c8_presence_counting (text : String) (e : String) (n : Nat)
    (h : (e, n) ∈ detect_emotions text) :
    ∃ kws, (e, kws) ∈ emotion_keywords ∧
      n = (kws.filter (fun k => pyInStr k (pyLower text))).length ∧
      1 ≤ n ∧ n ≤ kws.length := by
  unfold detect_emotions at h
  obtain ⟨g, hg, hfg⟩ := List.mem_filterMap.mp h
  by_cases hpos : presenceScore g.2 (pyLower text) > 0
  · rw [if_pos hpos] at hfg
    have hpair : (g.1, presenceScore g.2 (pyLower text)) = (e, n) := Option.some.inj hfg
    have he : g.1 = e := congrArg Prod.fst hpair
    have hn : presenceScore g.2 (pyLower text) = n := congrArg Prod.snd hpair
    refine ⟨g.2, ?_, ?_, ?_, ?_⟩
    · have : (e, g.2) = g := by
        cases g with
        | mk a b => simp_all
      rw [this]; exact hg
    · rw [← hn]
      unfold presenceScore
      exact List.countP_eq_length_filter _ _
    · omega
    · rw [← hn]
      unfold presenceScore
      exact List.countP_le_length _
  · rw [if_neg hpos] at hfg
    exact absurd hfg (by simp)

/-- Witness for c8_presence_counting on a concrete body. -/
theorem c8_presence_counting_witness :
    (("urgency", 2) ∈ detect_emotions "urgent asap") ∧
    (∃ kws, ("urgency", kws) ∈ emotion_keywords ∧
      2 = (kws.filter (fun k => pyInStr k (pyLower "urgent asap"))).length ∧
      1 ≤ 2 ∧ 2 ≤ kws.length) :=
  ⟨by decide, c8_presence_counting "urgent asap" "urgency" 2 (by decide)⟩

/-- C9: each Machiavellian trait score is 0 or 1, the index is exactly
the sum of the four traits divided by 4 (hence in the unit interval),
and build_risk_profile raises the High Machiavellian traits flag
exactly when all four trait indicators fire. -/
theorem c9_machiavellian_invariants (text : String) :
    (score_machiavellian_traits text).deception ≤ 1 ∧
    (score_machiavellian_traits text).emotional_control ≤ 1 ∧
    (score_machiavellian_traits text).strategic_vagueness ≤ 1 ∧
    (score_machiavellian_traits text).dominance_cue ≤ 1 ∧
    (score_machiavellian_traits text).machiavellian_index =
      (((score_machiavellian_traits text).deception +
        (score_machiavellian_traits text).emotional_control +
        (score_machiavellian_traits text).strategic_vagueness +
        (score_machiavellian_traits text).dominance_cue : Nat) : ℚ) / 4 ∧
    0 ≤ (score_machiavellian_traits text).machiavellian_index ∧
    (score_machiavellian_traits text).machiavellian_index ≤ 1 ∧
    ("High Machiavellian traits" ∈ (build_risk_profile text).flags ↔
      ((score_machiavellian_traits text).deception = 1 ∧
       (score_machiavellian_traits text).emotional_control = 1 ∧
       (score_machiavellian_traits text).strategic_vagueness = 1 ∧
       (score_machiavellian_traits text).dominance_cue = 1)) := by
  simp only [score_machiavellian_traits, build_risk_profile]
  by_cases h1 : pyInStr "unforeseen circumstance" (pyLower text) <;>
  by_cases h2 : pyInStr "as per our agreement" (pyLower text) <;>
  by_cases h3 : pyInStr "regrettably" (pyLower text) <;>
  by_cases h4 : (pyInStr "confidential" (pyLower text) ||
                 pyInStr "subjective" (pyLower text) ||
                 pyInStr "understanding" (pyLower text)) <;>
  simp only [h1, h2, h3, h4, if_true, if_false, Bool.false_eq_true, ite_true, ite_false] <;>
  norm_num [pyRound2, pyRoundHalfEven_0, pyRoundHalfEven_25, pyRoundHalfEven_50,
    pyRoundHalfEven_75, pyRoundHalfEven_100, highMach_ne_deceptionFlag,
    highMach_ne_obscureFlag]


theorem baseProbLookup_bounds (s : String) :
    1/2 ≤ baseProbLookup s ∧ baseProbLookup s ≤ 85/100 := by
  unfold baseProbLookup base_probabilities
  simp only [List.lookup]
  repeat' split
  all_goals simp
  all_goals norm_num

/-- C4: every causal link comes from an effect event strictly later in
the timeline than its cause, with the cause among the 5 events
immediately preceding the effect, and carries a strength above the 0.3
threshold — for every strength heuristic and every timeline. -/
theorem c4_causal_window {E V : Type} [Inhabited E]
    (assess : E → E → ℚ) (evid : E → E → V) (timeline : List E)
    (link : CausalLink E V)
    (h : link ∈ build_causal_relationship_map assess evid timeline) :
    ∃ i j, j < i ∧ i ≤ j + 5 ∧ i < timeline.length ∧
      link.cause_event = timeline.getD j default ∧
      link.effect_event = timeline.getD i default ∧
      link.causal_strength = assess link.cause_event link.effect_event ∧
      link.causal_strength > 3/10 := by
  unfold build_causal_relationship_map at h
  obtain ⟨i, hi, hinner⟩ := List.mem_flatMap.mp h
  rw [List.mem_range] at hi
  obtain ⟨j, hj, hcond⟩ := List.mem_filterMap.mp hinner
  obtain ⟨hj1, hj2⟩ := mem_pyRange hj
  refine ⟨i, j, hj2, by omega, hi, ?_⟩
  by_cases hs : assess (timeline.getD j default) (timeline.getD i default) > 3/10
  · rw [if_pos hs] at hcond
    obtain rfl := Option.some.inj hcond
    exact ⟨rfl, rfl, rfl, hs⟩
  · rw [if_neg hs] at hcond
    exact absurd hcond (by simp)

/-- Witness for c4_causal_window at a two-event timeline with a
constant strength heuristic. -/
theorem c4_causal_window_witness :
    ((⟨10, 20, 1, 0⟩ : CausalLink Nat Nat) ∈
      build_causal_relationship_map (fun _ _ => 1) (fun _ _ => 0) [10, 20]) ∧
    (∃ i j, j < i ∧ i ≤ j + 5 ∧ i < ([10, 20] : List Nat).length ∧
      (⟨10, 20, 1, 0⟩ : CausalLink Nat Nat).cause_event = ([10, 20] : List Nat).getD j default ∧
      (⟨10, 20, 1, 0⟩ : CausalLink Nat Nat).effect_event = ([10, 20] : List Nat).getD i default ∧
      (⟨10, 20, 1, 0⟩ : CausalLink Nat Nat).causal_strength = 1 ∧
      (⟨10, 20, 1, 0⟩ : CausalLink Nat Nat).causal_strength > 3/10) := by
  have hmem : (⟨10, 20, 1, 0⟩ : CausalLink Nat Nat) ∈
      build_causal_relationship_map (fun _ _ => 1) (fun _ _ => 0) [10, 20] := by
    norm_num [build_causal_relationship_map, pyRange, List.range_succ]
  refine ⟨hmem, ?_⟩
  obtain ⟨i, j, h1, h2, h3, h4, h5, h6, h7⟩ :=
    c4_causal_window (fun _ _ => (1 : ℚ)) (fun _ _ => (0 : Nat)) [10, 20] _ hmem
  exact ⟨i, j, h1, h2, h3, h4, h5, h6, h7⟩

/-- C7: for every strategy and every relationship data the computed
success probability lies in the unit interval, and the clamp used by
the source maps a base of 0.85 plus adjustments of 0.3 to exactly 1. -/
theorem c7_success_probability_clamped :
    (∀ (s : String) (rel : List (Option ℚ)),
        0 ≤ calculate_success_probability s rel ∧
        calculate_success_probability s rel ≤ 1) ∧
    probClamp (85/100 + 3/10) = 1 := by
  constructor
  · intro s rel
    have hbase := baseProbLookup_bounds s
    simp only [calculate_success_probability, probClamp]
    constructor
    · apply le_min (by norm_num)
      split
      · split
        · linarith [hbase.1]
        · linarith [hbase.1]
      · linarith [hbase.1]
    · exact min_le_left _ _
  · unfold probClamp
    norm_num

/-- C10: when every collected text piece strips to at most 10
characters, verification is attempted on nothing: zero content pieces,
a reported verification rate of 100, and government_verified = true. -/
theorem c10_empty_content_verified (verifier : String → VerificationDetail)
    (d : IntelligenceData)
    (h : ∀ c ∈ all_text_content d, (pyStrip c).length ≤ 10) :
    (verify_all_legal_information verifier d).total_content_pieces = 0 ∧
    (verify_all_legal_information verifier d).verification_rate = 100 ∧
    (verify_all_legal_information verifier d).government_verified = true := by
  have hres : (all_text_content d).enum.filterMap (fun ic =>
      if ic.2 ≠ "" ∧ (pyStrip ic.2).length > 10
      then some (ic.1, verifier ic.2) else none) = [] := by
    rw [List.filterMap_eq_nil_iff]
    intro ic hic
    have hc : ic.2 ∈ all_text_content d := by
      have hx := List.mem_enumFrom hic
      rw [hx.2.2]
      exact List.getElem_mem _
    rw [if_neg]
    intro hcontra
    exact absurd (h ic.2 hc) (by omega)
  simp only [verify_all_legal_information, hres]
  refine ⟨rfl, ?_, rfl⟩
  norm_num

/-- Witness for c10_empty_content_verified on a concrete input whose
only contents are empty or short strings. -/
theorem c10_empty_content_verified_witness :
    (∀ c ∈ all_text_content ⟨some [("landlord", [some "short", none])], none⟩,
        (pyStrip c).length ≤ 10) ∧
    ((verify_all_legal_information (fun _ => ⟨some 0⟩)
        ⟨some [("landlord", [some "short", none])], none⟩).total_content_pieces = 0 ∧
     (verify_all_legal_information (fun _ => ⟨some 0⟩)
        ⟨some [("landlord", [some "short", none])], none⟩).verification_rate = 100 ∧
     (verify_all_legal_information (fun _ => ⟨some 0⟩)
        ⟨some [("landlord", [some "short", none])], none⟩).government_verified = true) :=
  ⟨by decide, c10_empty_content_verified (fun _ => ⟨some 0⟩) _ (by decide)⟩

theorem stableInsertBy_length {α : Type} (key : α → ℤ) (x : α) (l : List α) :
    (stableInsertBy key x l).length = l.length + 1 := by
  induction l with
  | nil => rfl
  | cons y ys ih =>
    rw [stableInsertBy]
    split
    · simp
    · simp [ih]

theorem stableSortBy_length {α : Type} (key : α → ℤ) (l : List α) :
    (stableSortBy key l).length = l.length := by
  induction l with
  | nil => rfl
  | cons x xs ih =>
    rw [stableSortBy, stableInsertBy_length, ih, List.length_cons]

theorem exceptIsOk_true {e a : Type} {x : Except e a} (h : exceptIsOk x = true) :
    ∃ v, x = .ok v := by
  cases x with
  | ok v => exact ⟨v, rfl⟩
  | error err => exact absurd h (by simp [exceptIsOk])

theorem exceptIsOk_false {e a : Type} {x : Except e a} (h : exceptIsOk x = false) :
    ∃ err, x = .error err := by
  cases x with
  | ok v => exact absurd h (by simp [exceptIsOk])
  | error err => exact ⟨err, rfl⟩

theorem process_email_directory_counts (lib : EmailStdlib) (now : ℤ)
    (items : List (List Nat)) (st : ExtractorState) :
    (process_email_directory lib now st items).extracted_metadata.length =
      st.extracted_metadata.length +
        items.countP (fun b => exceptIsOk (lib.message_from_bytes b)) ∧
    (process_email_directory lib now st items).forensic_timeline.length =
      st.forensic_timeline.length +
        items.countP (fun b => exceptIsOk (lib.message_from_bytes b)) ∧
    (process_email_directory lib now st items).log =
      st.log ++ items.filterMap (fun b =>
        match lib.message_from_bytes b with
        | .error err => some (ForensicLogEntry.parse_error err.message)
        | .ok _ => none) := by
  induction items generalizing st with
  | nil => simp [process_email_directory]
  | cons b rest ih =>
    have hstep : process_email_directory lib now st (b :: rest) =
        process_email_directory lib now (process_single_eml lib now st b) rest := rfl
    rw [hstep, List.countP_cons, List.filterMap_cons]
    obtain ⟨ih1, ih2, ih3⟩ := ih (process_single_eml lib now st b)
    cases hb : lib.message_from_bytes b with
    | error err =>
      have h1 : (process_single_eml lib now st b).extracted_metadata =
          st.extracted_metadata := by
        simp [process_single_eml, hb]
      have h2 : (process_single_eml lib now st b).forensic_timeline =
          st.forensic_timeline := by
        simp [process_single_eml, hb]
      have h3 : (process_single_eml lib now st b).log =
          st.log ++ [ForensicLogEntry.parse_error err.message] := by
        simp [process_single_eml, hb]
      refine ⟨?_, ?_, ?_⟩
      · rw [ih1, h1]; try simp [hb, exceptIsOk]
      · rw [ih2, h2]; try simp [hb, exceptIsOk]
      · rw [ih3, h3]; try simp [hb]
    | ok msg =>
      have h1 : (process_single_eml lib now st b).extracted_metadata.length =
          st.extracted_metadata.length + 1 := by
        simp [process_single_eml, hb]
      have h2 : (process_single_eml lib now st b).forensic_timeline.length =
          st.forensic_timeline.length + 1 := by
        simp [process_single_eml, hb]
      have h3 : (process_single_eml lib now st b).log = st.log := by
        simp [process_single_eml, hb]
      refine ⟨?_, ?_, ?_⟩
      · rw [ih1, h1]; try simp [hb, exceptIsOk]; try omega
      · rw [ih2, h2]; try simp [hb, exceptIsOk]; try omega
      · rw [ih3, h3]; try simp [hb]

/-- C2: a batch with exactly one malformed item among well-formed ones
yields one extracted record per well-formed item (none dropped), a log
consisting of exactly one ParseError entry, and downstream timeline
analysis runs to completion over exactly the extracted records. -/
theorem c2_partial_failure_containment (lib : EmailStdlib) (now : ℤ)
    (good1 good2 : List (List Nat)) (bad : List Nat)
    (hgood : ∀ b ∈ good1 ++ good2, exceptIsOk (lib.message_from_bytes b) = true)
    (hbad : exceptIsOk (lib.message_from_bytes bad) = false) :
    (process_email_directory lib now emptyExtractorState
        (good1 ++ [bad] ++ good2)).extracted_metadata.length =
      good1.length + good2.length ∧
    (∃ err, (process_email_directory lib now emptyExtractorState
        (good1 ++ [bad] ++ good2)).log = [ForensicLogEntry.parse_error err]) ∧
    (generate_forensic_analysis (process_email_directory lib now emptyExtractorState
        (good1 ++ [bad] ++ good2))).timeline_analysis.total_events =
      good1.length + good2.length := by
  obtain ⟨c1, c2, c3⟩ :=
    process_email_directory_counts lib now (good1 ++ [bad] ++ good2) emptyExtractorState
  have hcount : (good1 ++ [bad] ++ good2).countP
      (fun b => exceptIsOk (lib.message_from_bytes b)) = good1.length + good2.length := by
    rw [List.countP_append, List.countP_append]
    have hg1 : good1.countP (fun b => exceptIsOk (lib.message_from_bytes b)) =
        good1.length := by
      rw [List.countP_eq_length]
      intro a ha
      exact hgood a (List.mem_append_left _ ha)
    have hg2 : good2.countP (fun b => exceptIsOk (lib.message_from_bytes b)) =
        good2.length := by
      rw [List.countP_eq_length]
      intro a ha
      exact hgood a (List.mem_append_right _ ha)
    rw [hg1, hg2, List.countP_cons, List.countP_nil, hbad]
    simp
  obtain ⟨err, herr⟩ := exceptIsOk_false hbad
  have hlogmap : (good1 ++ [bad] ++ good2).filterMap (fun b =>
      match lib.message_from_bytes b with
      | .error e2 => some (ForensicLogEntry.parse_error e2.message)
      | .ok _ => none) = [ForensicLogEntry.parse_error err.message] := by
    rw [List.filterMap_append, List.filterMap_append]
    have hnil : ∀ l : List (List Nat),
        (∀ b ∈ l, exceptIsOk (lib.message_from_bytes b) = true) →
        l.filterMap (fun b =>
          match lib.message_from_bytes b with
          | .error e2 => some (ForensicLogEntry.parse_error e2.message)
          | .ok _ => none) = [] := by
      intro l hl
      rw [List.filterMap_eq_nil_iff]
      intro b hb
      obtain ⟨v, hv⟩ := exceptIsOk_true (hl b hb)
      simp [hv]
    rw [hnil good1 (fun a ha => hgood a (List.mem_append_left _ ha)),
        hnil good2 (fun a ha => hgood a (List.mem_append_right _ ha))]
    simp [herr]
  refine ⟨?_, ⟨err.message, ?_⟩, ?_⟩
  · rw [c1, hcount]; simp [emptyExtractorState]
  · rw [c3, hlogmap]; simp [emptyExtractorState]
  · show (create_forensic_timeline _).total_events = _
    unfold create_forensic_timeline
    simp only [stableSortBy_length]
    rw [c2, hcount]
    simp [emptyExtractorState]

/-- Witness for c2_partial_failure_containment: four parseable items
around one empty (unparseable) item under the concrete oracle c2lib. -/
theorem c2_partial_failure_containment_witness :
    (∀ b ∈ ([[1], [2]] ++ [[3], [4]] : List (List Nat)),
        exceptIsOk (c2lib.message_from_bytes b) = true) ∧
    (exceptIsOk (c2lib.message_from_bytes []) = false) ∧
    ((process_email_directory c2lib 0 emptyExtractorState
        (([[1], [2]] : List (List Nat)) ++ [[]] ++ [[3], [4]])).extracted_metadata.length = 4 ∧
     (∃ err, (process_email_directory c2lib 0 emptyExtractorState
        (([[1], [2]] : List (List Nat)) ++ [[]] ++ [[3], [4]])).log =
          [ForensicLogEntry.parse_error err]) ∧
     (generate_forensic_analysis (process_email_directory c2lib 0 emptyExtractorState
        (([[1], [2]] : List (List Nat)) ++ [[]] ++ [[3], [4]]))).timeline_analysis.total_events = 4) :=
  ⟨by decide, by decide,
    c2_partial_failure_containment c2lib 0 [[1], [2]] [[3], [4]] []
      (by decide) (by decide)⟩

/-- C3: timeline construction is not null-safe everywhere.  The
narrative engine sorts raw optional timestamps, so a record set mixing
a null and a non-null timestamp raises a TypeError (modelled as the
none_comparison error); the forensic extractor, by contrast, maps null
to datetime.min and does sort the same records stably with the null
record first and nothing dropped. -/
theorem c3_null_timestamp_sort_crash :
    extract_comprehensive_timeline (fun _ => "medium") [c3EmailNull, c3EmailDated] [] 0 =
      .error PySortError.none_comparison ∧
    ((create_forensic_timeline
        [⟨some 1743462900, "email_communication",
          ["tenant@gmail.com", "agent@areal.com.au"], "Re: Notice", "h2"⟩,
         ⟨none, "email_communication",
          ["agent@areal.com.au", "tenant@gmail.com"], "Notice", "h1"⟩]).events.map
        (fun e => e.timestamp) = [none, some 1743462900]) := by
  constructor
  · rfl
  · rfl

/-- C6: metadata extraction is a pure function of the raw bytes through
the fixed stdlib oracles: two runs at different clock readings agree on
the content hash and on every other EmailRecord field, the extraction
timestamp excepted. -/
theorem c6_extract_idempotent (lib : EmailStdlib) (raw : List Nat) (now1 now2 : ℤ) :
    (extract_from_bytes lib raw now1).map stripExtractionTimestamp =
      (extract_from_bytes lib raw now2).map stripExtractionTimestamp ∧
    (extract_from_bytes lib raw now1).map (fun m => m.message_hash) =
      (extract_from_bytes lib raw now2).map (fun m => m.message_hash) := by
  unfold extract_from_bytes
  cases h : lib.message_from_bytes raw with
  | error e => exact ⟨rfl, rfl⟩
  | ok msg => exact ⟨rfl, rfl⟩

theorem betweenness_single_node :
    betweenness_centrality singleNodeGraph = [("alice", 0)] := by
  simp [betweenness_centrality, singleNodeGraph]

theorem closeness_single_node :
    closeness_centrality singleNodeGraph = [("alice", 0)] := by
  simp [closeness_centrality, singleNodeGraph, nxShortestLen, nxSimplePaths,
    simplePathsFrom, pathLen, natListMin]

theorem eigenvector_single_node :
    eigenvector_centrality singleNodeGraph 1000 = .ok [("alice", 1)] := by
  have hstart : (1 : ℚ) / ((singleNodeGraph.nodes.length : Nat) : ℚ) = 1 := by
    simp [singleNodeGraph]
  have hstep : ∀ fuel : Nat,
      eigLoop singleNodeGraph 1 (fuel + 1) [("alice", 1)] = .ok [("alice", 1)] := by
    intro fuel
    rw [eigLoop]
    simp [eigStep, nxSuccessors, singleNodeGraph, ratSqrt, l1Diff, Nat.sqrt_one]
    norm_num
  have h1000 : (1000 : Nat) = 999 + 1 := by norm_num
  simp only [eigenvector_centrality, singleNodeGraph, List.isEmpty_cons,
    Bool.false_eq_true, if_false, List.length_cons, List.length_nil, List.map_cons,
    List.map_nil, Nat.cast_one, ite_false]
  rw [show ((1 : ℚ) / ((0 + 1 : Nat) : ℚ)) = 1 by norm_num]
  rw [h1000]
  exact hstep 999

theorem power_dynamics_single_node :
    calculate_power_dynamics singleNodeGraph =
      .ok [("alice", ⟨0, 0, 1, 1/3⟩)] := by
  simp only [calculate_power_dynamics]
  rw [betweenness_single_node, closeness_single_node, eigenvector_single_node]
  simp [Except.map, scoreLookup, List.lookup, singleNodeGraph]
  try norm_num

/-- C5 counterexample: calculate_power_dynamics on a single-node graph
with no edges returns without error, but the overall power score is
1/3, not 0 — networkx eigenvector centrality of an isolated node is 1
(the power iteration on A + I fixes the unit vector immediately), while
betweenness and closeness are 0. -/
theorem c5_counterexample :
    calculate_power_dynamics singleNodeGraph = .ok [("alice", ⟨0, 0, 1, 1/3⟩)] ∧
    ¬ ((1 : ℚ)/3 = 0) :=
  ⟨power_dynamics_single_node, by norm_num⟩

/-- C5 (amended): a single-node graph with no edges raises no error;
its node scores betweenness 0, closeness 0, eigenvector 1 and
overall_power_score (0 + 0 + 1)/3 = 1/3. -/
theorem c5_single_node_power_one_third :
    exceptIsOk (calculate_power_dynamics singleNodeGraph) = true ∧
    (∃ scores, calculate_power_dynamics singleNodeGraph = .ok scores ∧
      scores.lookup "alice" = some ⟨0, 0, 1, 1/3⟩) := by
  refine ⟨?_, [("alice", ⟨0, 0, 1, 1/3⟩)], power_dynamics_single_node, ?_⟩
  · rw [power_dynamics_single_node]
    rfl
  · simp [List.lookup]
